import Mathlib

/-!
Shallow embedding of the DSMR smart-meter sensor platform
(homeassistant/components/sensor/dsmr.py) and the Rflink dynamic sensor
platform (homeassistant/components/sensor/rflink.py).

Python values carried by telegrams are modelled by the inductive `Val`
(numbers as integers, symbolic codes as strings); attribute reads through
`getattr(obj, attr, None)` become `Option`-valued projections; a telegram
(a dict keyed by obis reference) becomes an association list; the state
property of the derivative entity, which mutates the entity, becomes an
explicit state-passing function returning the produced value together with
the updated entity (`none` models an uncaught TypeError).
-/

/-- A Python value occurring as a telegram reading or a sensor state:
numeric readings are modelled as integers, symbolic readings (tariff codes,
the STATE_UNKNOWN sentinel) as strings. -/
inductive Val where
  | int : Int → Val
  | str : String → Val
deriving DecidableEq

/-- Python truthiness of a value: the number 0 and the empty string are
falsy, everything else is truthy. -/
def Val.truthy : Val → Bool
  | Val.int n => n != 0
  | Val.str s => s != ""

/-- Python truthiness of an optional value: None is falsy. -/
def pyTruthy : Option Val → Bool
  | none => false
  | some v => v.truthy

/-- The sentinel STATE_UNKNOWN imported from homeassistant.const: the
string "unknown". -/
def STATE_UNKNOWN : Val := Val.str "unknown"

/-- One decoded DSMR object (a dsmr_parser CosemObject or MBusObject):
a value, an optional unit string and an optional timestamp. A field that is
`none` models the attribute being absent or None, so that
`getattr(obj, attribute, None)` yields None for it. -/
structure DsmrObject where
  value : Option Val
  unit : Option String
  datetime : Option Nat
deriving DecidableEq

/-- A decoded telegram: a dictionary from obis reference to DSMR object,
modelled as an association list. -/
abbrev Telegram := List (String × DsmrObject)

/-- Obis reference ELECTRICITY_ACTIVE_TARIFF from dsmr_parser
obis_references. -/
def ELECTRICITY_ACTIVE_TARIFF : String := "0-0:96.14.0"

/-- Obis reference GAS_METER_READING from dsmr_parser obis_references. -/
def GAS_METER_READING : String := "0-1:24.3.0"

/-- Obis reference CURRENT_ELECTRICITY_USAGE from dsmr_parser
obis_references. -/
def CURRENT_ELECTRICITY_USAGE : String := "1-0:1.7.0"

/-- DSMREntity.get_dsmr_object_attr: if the entity's obis is not a key of
the last received telegram, return None; otherwise read the requested
attribute from the telegram's object, None when the object lacks it. -/
def get_dsmr_object_attr (telegram : Telegram) (obis : String)
    (attrOf : DsmrObject → Option α) : Option α :=
  match telegram.lookup obis with
  | none => none
  | some dsmr_object => attrOf dsmr_object

/-- A DSMREntity after DSMREntity.__init__: a name, a bound obis reference
and the last received telegram (initially the empty dict). __init__ also
assigns self._state = 10, but the base class never reads _state; the field
only matters for DerivativeDSMREntity and is modelled there. -/
structure DSMREntity where
  name : String
  obis : String
  telegram : Telegram
deriving DecidableEq

/-- The expression self.get_dsmr_object_attr('value') used by the state
properties. -/
def DSMREntity.read_value (e : DSMREntity) : Option Val :=
  get_dsmr_object_attr e.telegram e.obis DsmrObject.value

/-- DSMREntity.translate_tariff: convert the tariff codes 0002/0001 to
normal/low, anything else (None included) to STATE_UNKNOWN. -/
def DSMREntity.translate_tariff (value : Option Val) : Val :=
  if value = some (Val.str "0002") then Val.str "normal"
  else if value = some (Val.str "0001") then Val.str "low"
  else STATE_UNKNOWN

/-- DSMREntity.state: read the value attribute for the bound obis; the
active-tariff entity translates it, every other entity returns the value
when it is truthy and STATE_UNKNOWN otherwise. -/
def DSMREntity.state (e : DSMREntity) : Val :=
  if e.obis = ELECTRICITY_ACTIVE_TARIFF then
    DSMREntity.translate_tariff e.read_value
  else
    match e.read_value with
    | some v => if v.truthy then v else STATE_UNKNOWN
    | none => STATE_UNKNOWN

/-- DSMREntity.unit_of_measurement: the unit attribute for the bound obis,
None when the obis or the attribute is absent. -/
def DSMREntity.unit_of_measurement (e : DSMREntity) : Option String :=
  get_dsmr_object_attr e.telegram e.obis DsmrObject.unit

/-- A DerivativeDSMREntity: the fields of DSMREntity plus the derivative
state (previous reading, previous timestamp, last computed state). -/
structure DerivativeDSMREntity where
  name : String
  obis : String
  telegram : Telegram
  previous_reading : Option Val
  previous_timestamp : Option Nat
  state_val : Val
deriving DecidableEq

/-- A DerivativeDSMREntity as produced by the inherited DSMREntity.__init__:
empty telegram, no previous reading or timestamp, and state 10 — __init__
assigns self._state = 10 on every instance, which shadows the class
attribute _state = STATE_UNKNOWN declared on DerivativeDSMREntity. -/
def DerivativeDSMREntity.init (name obis : String) : DerivativeDSMREntity :=
  { name := name
    obis := obis
    telegram := []
    previous_reading := none
    previous_timestamp := none
    state_val := Val.int 10 }

/-- The expression self.get_dsmr_object_attr('value') on a derivative
entity. -/
def DerivativeDSMREntity.read_value (e : DerivativeDSMREntity) : Option Val :=
  get_dsmr_object_attr e.telegram e.obis DsmrObject.value

/-- The expression self.get_dsmr_object_attr('datetime') on a derivative
entity. -/
def DerivativeDSMREntity.read_datetime (e : DerivativeDSMREntity) : Option Nat :=
  get_dsmr_object_attr e.telegram e.obis DsmrObject.datetime

/-- The expression self.get_dsmr_object_attr('unit') on a derivative
entity. -/
def DerivativeDSMREntity.read_unit (e : DerivativeDSMREntity) : Option String :=
  get_dsmr_object_attr e.telegram e.obis DsmrObject.unit

/-- Python subtraction current_reading - previous_reading: defined when both
operands are numbers; any other combination (None, or a string operand)
raises TypeError, modelled as none. -/
def valSub : Option Val → Val → Option Val
  | some (Val.int a), Val.int b => some (Val.int (a - b))
  | _, _ => none

/-- DerivativeDSMREntity.state: evaluating the property returns the current
hourly rate and may mutate the derivative state, so it is modelled as
returning the produced value together with the updated entity. If a
timestamp is available and differs from the stored previous timestamp, the
previous reading and timestamp are replaced (and, when a previous reading
existed, the state becomes the difference of the readings); otherwise
nothing changes and the stored state is returned. `none` models the
TypeError raised when the subtraction hits a None or string reading. -/
def DerivativeDSMREntity.state (e : DerivativeDSMREntity) :
    Option (Val × DerivativeDSMREntity) :=
  match e.read_datetime with
  | some ts =>
    if some ts ≠ e.previous_timestamp then
      let current_reading := e.read_value
      match e.previous_reading with
      | none =>
        some (e.state_val,
          { e with
            previous_reading := current_reading
            previous_timestamp := some ts })
      | some prev =>
        match valSub current_reading prev with
        | some diff =>
          some (diff,
            { e with
              state_val := diff
              previous_reading := current_reading
              previous_timestamp := some ts })
        | none => none
    else
      some (e.state_val, e)
  | none => some (e.state_val, e)

/-- DerivativeDSMREntity.unit_of_measurement: the base unit with "/h"
appended when the base unit is truthy (present and non-empty), None
otherwise. -/
def DerivativeDSMREntity.unit_of_measurement (e : DerivativeDSMREntity) :
    Option String :=
  match e.read_unit with
  | some u => if u ≠ "" then some (u ++ "/h") else none
  | none => none

/-- Deliver a sequence of telegrams to a derivative entity: for each
telegram, update_entities_telegram assigns it to the entity and the state
property is then evaluated; the returned states are collected in order. -/
def DerivativeDSMREntity.runStates (e : DerivativeDSMREntity) :
    List Telegram → Option (List Val)
  | [] => some []
  | t :: ts =>
    match DerivativeDSMREntity.state { e with telegram := t } with
    | none => none
    | some (v, e2) =>
      match DerivativeDSMREntity.runStates e2 ts with
      | none => none
      | some vs => some (v :: vs)

/-- A gas MBusObject carrying a timestamp, a cumulative reading and the
unit m3. -/
def mbusObj (ts : Nat) (v : Int) : DsmrObject :=
  { value := some (Val.int v), unit := some "m3", datetime := some ts }

/-- A telegram containing only the gas meter reading. -/
def gasTelegram (ts : Nat) (v : Int) : Telegram :=
  [(GAS_METER_READING, mbusObj ts v)]

/-- The derivative gas entity exactly as created during platform setup. -/
def gasEntity : DerivativeDSMREntity :=
  DerivativeDSMREntity.init "Hourly Gas Consumption" GAS_METER_READING

/-- A tariff CosemObject carrying a symbolic code. -/
def tariffObj (s : String) : DsmrObject :=
  { value := some (Val.str s), unit := none, datetime := none }

/-- The active-tariff entity with a telegram carrying the given code. -/
def tariffEntity (s : String) : DSMREntity :=
  { name := "Power Tariff"
    obis := ELECTRICITY_ACTIVE_TARIFF
    telegram := [(ELECTRICITY_ACTIVE_TARIFF, tariffObj s)] }

/-- A non-tariff base entity whose last telegram is empty. -/
def emptyGasBase : DSMREntity :=
  { name := "Gas Consumption", obis := GAS_METER_READING, telegram := [] }

/-- A non-tariff base entity whose telegram contains its obis with the
falsy reading 0. -/
def zeroValueEntity : DSMREntity :=
  { name := "Power Consumption"
    obis := CURRENT_ELECTRICITY_USAGE
    telegram := [(CURRENT_ELECTRICITY_USAGE,
      { value := some (Val.int 0), unit := some "kW", datetime := none })] }

/-- A derivative entity whose telegram carries the empty string as unit. -/
def emptyUnitGasEntity : DerivativeDSMREntity :=
  { gasEntity with telegram := [(GAS_METER_READING,
      { value := some (Val.int 100), unit := some "", datetime := some 1 })] }

/-- A derivative entity whose telegram carries the unit m3. -/
def m3UnitGasEntity : DerivativeDSMREntity :=
  { gasEntity with telegram := gasTelegram 1 100 }

/-- A derivative entity receiving again the telegram whose timestamp it has
already consumed. -/
def dupTsGasEntity : DerivativeDSMREntity :=
  { gasEntity with
    telegram := gasTelegram 5 100
    previous_reading := some (Val.int 100)
    previous_timestamp := some 5 }

/-!
Rflink dynamic sensor platform (rflink.py). The pieces of the repository it
uses that are not under src/ (rflink.serialize_id, the RflinkDevice base
class, the group component) are modelled from the spec where noted.
-/

/-- An Rflink packet: the identifying fields (protocol, address, ...) and
the named measurement sub-keys with their numeric values. -/
structure Packet where
  ident_fields : List String
  data : List (String × Int)
deriving DecidableEq

/-- Modelled from the spec: rflink.serialize_id is not under src/; its
contract is that the identifying fields of a packet serialize
deterministically to a device identifier, equal fields giving equal
identifiers. Modelled as joining the identifying fields. -/
def serialize_id (p : Packet) : String :=
  String.intercalate "_" p.ident_fields

/-- The fixed table of recognized sensor sub-keys and their units. -/
def SENSOR_KEYS_AND_UNITS : List (String × String) :=
  [("temperature", "°C"), ("humidity", "%")]

/-- An RflinkSensor entity: bound device identifier, bound value sub-key,
unit, and its current state (None until a packet is handled). -/
structure RflinkSensor where
  device_id : String
  value_key : String
  unit : String
  state_val : Option Int
deriving DecidableEq

/-- RflinkSensor._handle_packet: store the packet's value for the bound
value_key as the sensor state. In add_new_device the key is present in the
packet by construction, so the dict access cannot fail there. -/
def RflinkSensor.handle_packet (s : RflinkSensor) (p : Packet) : RflinkSensor :=
  { s with state_val := p.data.lookup s.value_key }

/-- Modelled from the spec: the entity identifier assigned by the framework
to a registered entity (RflinkDevice base class, not under src/) — a stable
identifier derived from the device identifier and bound sub-key. -/
def RflinkSensor.entity_id (s : RflinkSensor) : String :=
  "sensor." ++ s.device_id ++ "_" ++ s.value_key

/-- The mutable platform state touched by add_new_device: the module-level
KNOWN_DEVICE_IDS list, the entities registered through async_add_devices
(entities are registered by reference, so the list holds them after
match_packet updated them), and the tracked entity-id list of the optional
new-devices group (None when no group is configured). -/
structure PlatformState where
  known_device_ids : List String
  registered : List RflinkSensor
  group_tracking : Option (List String)
deriving DecidableEq

/-- add_new_device: serialize the packet's identifying fields to a device
identifier; if it is already known, do nothing. Otherwise append it to
KNOWN_DEVICE_IDS, create one RflinkSensor per recognized sub-key present in
the packet (bound to that sub-key and its table unit), register them, let
each handle the packet, and extend the configured group's tracked ids with
the new entity ids. -/
def add_new_device (st : PlatformState) (p : Packet) : PlatformState :=
  let device_id := serialize_id p
  if device_id ∈ st.known_device_ids then st
  else
    let devices := (SENSOR_KEYS_AND_UNITS.filter
        (fun ku => (p.data.lookup ku.1).isSome)).map
      (fun ku => ({ device_id := device_id
                    value_key := ku.1
                    unit := ku.2
                    state_val := none } : RflinkSensor))
    let updated := devices.map (fun d => d.handle_packet p)
    { known_device_ids := st.known_device_ids ++ [device_id]
      registered := st.registered ++ updated
      group_tracking :=
        match st.group_tracking with
        | some tracking => some (tracking ++ devices.map RflinkSensor.entity_id)
        | none => none }

/-- A packet from a temperature sensor. -/
def tempPacket : Packet :=
  { ident_fields := ["alectov1", "ta52"], data := [("temperature", 21)] }

/-- A packet carrying no recognized sub-key. -/
def unknownKeyPacket : Packet :=
  { ident_fields := ["alectov1", "ta99"], data := [("battery", 90)] }

/-- A platform state that already knows tempPacket's device identifier. -/
def knownState : PlatformState :=
  { known_device_ids := ["alectov1_ta52"]
    registered := []
    group_tracking := some [] }

/-- A fresh platform state with a configured (empty) new-devices group. -/
def freshState : PlatformState :=
  { known_device_ids := []
    registered := []
    group_tracking := some [] }

/-!
Theorems about the DSMR platform.
-/

/-- C1: actual behaviour of the derivative gas channel on the five successive
readings (T1,100), (T1,100), (T2,130), (T2,130), (T3,125) starting from the
freshly initialized entity: the five evaluations return 10, 10, 30, 30, -5.
The duplicate timestamps are no-ops and the negative delta is returned
as-is, as the claim states, but the first two evaluations return the
placeholder 10 that DSMREntity.__init__ assigns to _state — shadowing the
class attribute _state = STATE_UNKNOWN — instead of the unknown sentinel
the claim (and the spec) require. -/
theorem derivative_sequence_run :
    DerivativeDSMREntity.runStates gasEntity
        [gasTelegram 1 100, gasTelegram 1 100, gasTelegram 2 130,
         gasTelegram 2 130, gasTelegram 3 125] =
      some [Val.int 10, Val.int 10, Val.int 30, Val.int 30, Val.int (-5)] ∧
    Val.int 10 ≠ STATE_UNKNOWN := by
  exact ⟨by decide, by decide⟩

/-- C2: the active-tariff channel's state maps the value "0001" to "low",
the value "0002" to "normal", and every other value (an absent identifier
included, whose attribute read yields None) to STATE_UNKNOWN. -/
theorem tariff_state_mapping (e : DSMREntity)
    (h : e.obis = ELECTRICITY_ACTIVE_TARIFF) :
    (e.read_value = some (Val.str "0001") →
      DSMREntity.state e = Val.str "low") ∧
    (e.read_value = some (Val.str "0002") →
      DSMREntity.state e = Val.str "normal") ∧
    (e.read_value ≠ some (Val.str "0001") →
      e.read_value ≠ some (Val.str "0002") →
      DSMREntity.state e = STATE_UNKNOWN) := by
  have hs : DSMREntity.state e = DSMREntity.translate_tariff e.read_value := by
    unfold DSMREntity.state
    rw [if_pos h]
  refine ⟨?_, ?_, ?_⟩
  · intro hv
    rw [hs, hv]
    rfl
  · intro hv
    rw [hs, hv]
    rfl
  · intro h1 h2
    rw [hs]
    unfold DSMREntity.translate_tariff
    rw [if_neg h2, if_neg h1]

/-- Witness for C2: concrete tariff telegrams evaluated through
tariff_state_mapping. -/
theorem tariff_state_mapping_check :
    DSMREntity.state (tariffEntity "0001") = Val.str "low" ∧
    DSMREntity.state (tariffEntity "0002") = Val.str "normal" ∧
    DSMREntity.state (tariffEntity "0042") = STATE_UNKNOWN :=
  ⟨(tariff_state_mapping (tariffEntity "0001") rfl).1 rfl,
   (tariff_state_mapping (tariffEntity "0002") rfl).2.1 rfl,
   (tariff_state_mapping (tariffEntity "0042") rfl).2.2 (by decide) (by decide)⟩

/-- C3: a non-tariff, non-derivative channel whose bound obis is not a key
of the stored telegram has state STATE_UNKNOWN and unit None. -/
theorem missing_identifier_defaults (e : DSMREntity)
    (hobis : e.obis ≠ ELECTRICITY_ACTIVE_TARIFF)
    (habs : e.telegram.lookup e.obis = none) :
    DSMREntity.state e = STATE_UNKNOWN ∧ e.unit_of_measurement = none := by
  have hv : e.read_value = none := by
    unfold DSMREntity.read_value get_dsmr_object_attr
    rw [habs]
  constructor
  · unfold DSMREntity.state
    rw [if_neg hobis, hv]
  · unfold DSMREntity.unit_of_measurement get_dsmr_object_attr
    rw [habs]

/-- Witness for C3: the gas base entity with an empty telegram evaluated
through missing_identifier_defaults. -/
theorem missing_identifier_defaults_check :
    DSMREntity.state emptyGasBase = STATE_UNKNOWN ∧
    emptyGasBase.unit_of_measurement = none :=
  missing_identifier_defaults emptyGasBase (by decide) rfl

/-- C9: a non-tariff channel whose telegram does contain the bound obis but
with a falsy value (the number 0, the empty string) still has state
STATE_UNKNOWN, because the code tests the value's truthiness rather than
the identifier's presence. -/
theorem falsy_value_unknown (e : DSMREntity) (v : Val)
    (hobis : e.obis ≠ ELECTRICITY_ACTIVE_TARIFF)
    (hval : e.read_value = some v)
    (hfal : v.truthy = false) :
    DSMREntity.state e = STATE_UNKNOWN := by
  unfold DSMREntity.state
  rw [if_neg hobis, hval]
  simp [hfal]

/-- Witness for C9: a current-usage telegram carrying the reading 0
evaluated through falsy_value_unknown. -/
theorem falsy_value_unknown_check :
    DSMREntity.state zeroValueEntity = STATE_UNKNOWN :=
  falsy_value_unknown zeroValueEntity (Val.int 0) (by decide) rfl rfl

/-- C4: if the derivative channel's current timestamp read is None or equal
to the stored previous timestamp, evaluating state returns the previously
computed state and leaves the entity (all derivative fields included)
unchanged; and whenever evaluating state changes the entity, a timestamp
was present and differed from the stored previous timestamp. -/
theorem derivative_frame_conditions (e : DerivativeDSMREntity) :
    (e.read_datetime = none ∨ e.read_datetime = e.previous_timestamp →
      DerivativeDSMREntity.state e = some (e.state_val, e)) ∧
    (∀ v e2, DerivativeDSMREntity.state e = some (v, e2) → e2 ≠ e →
      ∃ ts, e.read_datetime = some ts ∧ some ts ≠ e.previous_timestamp) := by
  rcases hts : e.read_datetime with _ | ts
  · have hst : DerivativeDSMREntity.state e = some (e.state_val, e) := by
      unfold DerivativeDSMREntity.state
      rw [hts]
    refine ⟨fun _ => hst, ?_⟩
    intro v e2 hse hne
    rw [hst] at hse
    exact absurd (congrArg Prod.snd (Option.some.inj hse)) (fun h => hne h.symm)
  · by_cases heq : some ts = e.previous_timestamp
    · have hcond : ¬(some ts ≠ e.previous_timestamp) := fun hc => hc heq
      have hst : DerivativeDSMREntity.state e = some (e.state_val, e) := by
        unfold DerivativeDSMREntity.state
        rw [hts]
        simp [hcond]
      refine ⟨fun _ => hst, ?_⟩
      intro v e2 hse hne
      rw [hst] at hse
      exact absurd (congrArg Prod.snd (Option.some.inj hse)) (fun h => hne h.symm)
    · refine ⟨?_, ?_⟩
      · rintro (h | h)
        · exact absurd h (by simp)
        · exact absurd h heq
      · intro v e2 _ _
        exact ⟨ts, rfl, heq⟩

/-- Witness for C4: a derivative entity receiving again the timestamp it has
already consumed, evaluated through derivative_frame_conditions. -/
theorem derivative_frame_conditions_check :
    DerivativeDSMREntity.state dupTsGasEntity =
      some (dupTsGasEntity.state_val, dupTsGasEntity) :=
  (derivative_frame_conditions dupTsGasEntity).1 (Or.inr rfl)

/-- C5 counterexample: a derivative entity whose latest record carries the
empty string as base unit. The base unit is present (the attribute read
yields the empty string, not None), yet unit_of_measurement returns None
rather than the base unit with "/h" appended, because the code tests the
unit's truthiness. -/
theorem derivative_unit_empty_string :
    emptyUnitGasEntity.read_unit = some "" ∧
    DerivativeDSMREntity.unit_of_measurement emptyUnitGasEntity = none ∧
    DerivativeDSMREntity.unit_of_measurement emptyUnitGasEntity ≠
      some ("" ++ "/h") := by
  exact ⟨rfl, rfl, by decide⟩

/-- C5 (amended): the derivative channel's unit_of_measurement returns the
base unit with "/h" appended when the base unit is present and non-empty,
and None when the base unit is absent or the empty string. -/
theorem derivative_unit_suffix (e : DerivativeDSMREntity) :
    (∀ u, e.read_unit = some u → u ≠ "" →
      DerivativeDSMREntity.unit_of_measurement e = some (u ++ "/h")) ∧
    (e.read_unit = none ∨ e.read_unit = some "" →
      DerivativeDSMREntity.unit_of_measurement e = none) := by
  constructor
  · intro u hu hne
    unfold DerivativeDSMREntity.unit_of_measurement
    rw [hu]
    simp [hne]
  · rintro (h | h)
    · unfold DerivativeDSMREntity.unit_of_measurement
      rw [h]
    · unfold DerivativeDSMREntity.unit_of_measurement
      rw [h]
      simp

/-- Witness for C5: the unit m3 yields m3/h, through
derivative_unit_suffix. -/
theorem derivative_unit_suffix_check :
    DerivativeDSMREntity.unit_of_measurement m3UnitGasEntity =
      some ("m3" ++ "/h") :=
  (derivative_unit_suffix m3UnitGasEntity).1 "m3" rfl (by decide)

/-!
Theorems about the Rflink platform.
-/

/-- C6: when a packet's identifying fields serialize to a device identifier
already in the known-device set, the handler changes nothing: no channel is
created, no entity is registered, the group tracking is not updated and the
known-device set is unchanged. -/
theorem known_device_noop (st : PlatformState) (p : Packet)
    (h : serialize_id p ∈ st.known_device_ids) :
    add_new_device st p = st := by
  simp [add_new_device, h]

/-- Witness for C6: a second packet from an already known device identifier
evaluated through known_device_noop. -/
theorem known_device_noop_check :
    add_new_device knownState tempPacket = knownState :=
  known_device_noop knownState tempPacket (by decide)

/-- C8: every step of the dynamic-mode packet handler either leaves the
known-device set unchanged or appends exactly one identifier not yet in it;
in particular no identifier is ever removed. -/
theorem known_ids_append_only (st : PlatformState) (p : Packet) :
    (add_new_device st p).known_device_ids = st.known_device_ids ∨
    ∃ d, d ∉ st.known_device_ids ∧
      (add_new_device st p).known_device_ids = st.known_device_ids ++ [d] := by
  by_cases h : serialize_id p ∈ st.known_device_ids
  · left
    simp [add_new_device, h]
  · right
    exact ⟨serialize_id p, h, by simp [add_new_device, h]⟩

/-- C7: a packet from an unseen device identifier creates exactly one
channel per recognized sub-key (of the fixed sub-key/unit table) present in
the packet; table sub-keys absent from the packet produce no channel, and
every created channel is bound to the new device identifier, to its
sub-key, and to the table unit of that sub-key, so unrecognized packet keys
produce nothing. -/
theorem new_device_channels (st : PlatformState) (p : Packet)
    (h : serialize_id p ∉ st.known_device_ids) :
    ∃ created,
      (add_new_device st p).registered = st.registered ++ created ∧
      (∀ k u, (k, u) ∈ SENSOR_KEYS_AND_UNITS → (p.data.lookup k).isSome →
        (created.filter (fun d => d.value_key == k)).length = 1) ∧
      (∀ k u, (k, u) ∈ SENSOR_KEYS_AND_UNITS → p.data.lookup k = none →
        (created.filter (fun d => d.value_key == k)).length = 0) ∧
      (∀ d ∈ created, d.device_id = serialize_id p ∧
        (d.value_key, d.unit) ∈ SENSOR_KEYS_AND_UNITS ∧
        (p.data.lookup d.value_key).isSome) := by
  rcases h1 : p.data.lookup "temperature" with _ | v1 <;>
    rcases h2 : p.data.lookup "humidity" with _ | v2
  · refine ⟨[], ?_, ?_, ?_, ?_⟩
    · simp [add_new_device, h, SENSOR_KEYS_AND_UNITS, h1, h2]
    · intro k u hk
      simp [SENSOR_KEYS_AND_UNITS] at hk
      rcases hk with ⟨hk1, _⟩ | ⟨hk1, _⟩ <;> subst hk1 <;> simp [h1, h2]
    · intro k u hk _
      simp
    · intro d hd
      simp at hd
  · refine ⟨[{ device_id := serialize_id p
               value_key := "humidity"
               unit := "%"
               state_val := some v2 }], ?_, ?_, ?_, ?_⟩
    · simp [add_new_device, h, SENSOR_KEYS_AND_UNITS, h1, h2,
        RflinkSensor.handle_packet]
    · intro k u hk
      simp [SENSOR_KEYS_AND_UNITS] at hk
      rcases hk with ⟨hk1, _⟩ | ⟨hk1, _⟩ <;> subst hk1 <;>
        simp [h1, h2, List.filter]
    · intro k u hk
      simp [SENSOR_KEYS_AND_UNITS] at hk
      rcases hk with ⟨hk1, _⟩ | ⟨hk1, _⟩ <;> subst hk1 <;>
        simp [h1, h2, List.filter]
    · intro d hd
      simp at hd
      subst hd
      simp [SENSOR_KEYS_AND_UNITS, h2]
  · refine ⟨[{ device_id := serialize_id p
               value_key := "temperature"
               unit := "°C"
               state_val := some v1 }], ?_, ?_, ?_, ?_⟩
    · simp [add_new_device, h, SENSOR_KEYS_AND_UNITS, h1, h2,
        RflinkSensor.handle_packet]
    · intro k u hk
      simp [SENSOR_KEYS_AND_UNITS] at hk
      rcases hk with ⟨hk1, _⟩ | ⟨hk1, _⟩ <;> subst hk1 <;>
        simp [h1, h2, List.filter]
    · intro k u hk
      simp [SENSOR_KEYS_AND_UNITS] at hk
      rcases hk with ⟨hk1, _⟩ | ⟨hk1, _⟩ <;> subst hk1 <;>
        simp [h1, h2, List.filter]
    · intro d hd
      simp at hd
      subst hd
      simp [SENSOR_KEYS_AND_UNITS, h1]
  · refine ⟨[{ device_id := serialize_id p
               value_key := "temperature"
               unit := "°C"
               state_val := some v1 },
             { device_id := serialize_id p
               value_key := "humidity"
               unit := "%"
               state_val := some v2 }], ?_, ?_, ?_, ?_⟩
    · simp [add_new_device, h, SENSOR_KEYS_AND_UNITS, h1, h2,
        RflinkSensor.handle_packet]
    · intro k u hk
      simp [SENSOR_KEYS_AND_UNITS] at hk
      rcases hk with ⟨hk1, _⟩ | ⟨hk1, _⟩ <;> subst hk1 <;>
        simp [h1, h2, List.filter]
    · intro k u hk
      simp [SENSOR_KEYS_AND_UNITS] at hk
      rcases hk with ⟨hk1, _⟩ | ⟨hk1, _⟩ <;> subst hk1 <;>
        simp [h1, h2, List.filter]
    · intro d hd
      simp at hd
      rcases hd with hd | hd <;> subst hd <;>
        simp [SENSOR_KEYS_AND_UNITS, h1, h2]

/-- Witness for C7: the first temperature packet from a fresh platform state
evaluated through new_device_channels. -/
theorem new_device_channels_check :
    ∃ created,
      (add_new_device freshState tempPacket).registered =
        freshState.registered ++ created ∧
      (∀ k u, (k, u) ∈ SENSOR_KEYS_AND_UNITS →
        (tempPacket.data.lookup k).isSome →
        (created.filter (fun d => d.value_key == k)).length = 1) ∧
      (∀ k u, (k, u) ∈ SENSOR_KEYS_AND_UNITS → tempPacket.data.lookup k = none →
        (created.filter (fun d => d.value_key == k)).length = 0) ∧
      (∀ d ∈ created, d.device_id = serialize_id tempPacket ∧
        (d.value_key, d.unit) ∈ SENSOR_KEYS_AND_UNITS ∧
        (tempPacket.data.lookup d.value_key).isSome) :=
  new_device_channels freshState tempPacket (by decide)

/-- C10: a first packet carrying no recognized sub-key still adds its device
identifier to the known-device set while creating and registering nothing;
afterwards any handler step on a state that knows this identifier is the
identity for packets of this identifier, and the identifier stays in the
known-device set across every handler step, so no later packet from this
device can ever create channels. -/
theorem unrecognized_keys_device (st : PlatformState) (p : Packet)
    (hnew : serialize_id p ∉ st.known_device_ids)
    (hnone : ∀ k u, (k, u) ∈ SENSOR_KEYS_AND_UNITS → p.data.lookup k = none) :
    add_new_device st p =
      { st with known_device_ids :=
          st.known_device_ids ++ [serialize_id p] } ∧
    (∀ st2 q, serialize_id p ∈ st2.known_device_ids →
      serialize_id q = serialize_id p → add_new_device st2 q = st2) ∧
    (∀ st2 q, serialize_id p ∈ st2.known_device_ids →
      serialize_id p ∈ (add_new_device st2 q).known_device_ids) := by
  have h1 : p.data.lookup "temperature" = none :=
    hnone "temperature" "°C" (by simp [SENSOR_KEYS_AND_UNITS])
  have h2 : p.data.lookup "humidity" = none :=
    hnone "humidity" "%" (by simp [SENSOR_KEYS_AND_UNITS])
  refine ⟨?_, ?_, ?_⟩
  · cases hg : st.group_tracking <;>
      simp [add_new_device, hnew, SENSOR_KEYS_AND_UNITS, h1, h2, hg]
  · intro st2 q hmem hser
    simp only [add_new_device]
    rw [hser, if_pos hmem]
  · intro st2 q hmem
    by_cases hq : serialize_id q ∈ st2.known_device_ids
    · simp [add_new_device, hq, hmem]
    · simp [add_new_device, hq]
      exact Or.inl hmem

/-- Witness for C10: a battery-only packet from a fresh platform state
evaluated through unrecognized_keys_device. -/
theorem unrecognized_keys_device_check :
    add_new_device freshState unknownKeyPacket =
      { freshState with known_device_ids :=
          freshState.known_device_ids ++ [serialize_id unknownKeyPacket] } :=
  (unrecognized_keys_device freshState unknownKeyPacket (by decide)
    (by
      intro k u hk
      simp [SENSOR_KEYS_AND_UNITS] at hk
      rcases hk with ⟨hk1, _⟩ | ⟨hk1, _⟩ <;> subst hk1 <;> rfl)).1
